import Mathlib

/-!
Verification of the `deepforest` wrapper class (`deepforest/deepforest.py`).

The class holds a session state (`saved_model`, `config`, `model`,
`prediction_model`, `training_model`) and delegates real work to external
routines (`utilities.read_config`, `utilities.read_model`,
`utilities.format_args`, `utilities.use_release`, `retinanet_train`,
`keras_retinanet.models.convert_model`, `predict.predict_image`,
`matplotlib`).  Those externals are modelled as an environment of
uninterpreted total functions; the wrapper's own control flow and state
updates are embedded faithfully from the Python source.
-/

/-- Opaque handle to a Keras model object; the `id` only distinguishes
distinct handles produced by the external routines. -/
structure ModelHandle where
  id : Nat
deriving DecidableEq, Repr

/-- The configuration mapping returned by `utilities.read_config`: named
hyperparameters and paths as string entries. -/
structure Config where
  entries : List (String × String)
deriving DecidableEq, Repr

/-- Opaque structured array of predicted bounding boxes. -/
structure Boxes where
  id : Nat
deriving DecidableEq, Repr

/-- An image array: spatial dimensions plus an opaque content id. -/
structure Image where
  height : Nat
  width : Nat
  content : Nat
deriving DecidableEq, Repr

/-- Value returned by the delegated prediction routine: either an image
with annotations overlaid, or the structured array of boxes. -/
inductive PredictOutput where
  | image (img : Image)
  | boxes (bs : Boxes)
deriving DecidableEq, Repr

/-- External routines that `predict_image` may invoke, recorded as a trace
in the order they run. -/
inductive ExtCall where
  | convertModel
  | predictExt
  | showPlot
deriving DecidableEq, Repr

/-- The external environment: the routines the wrapper delegates to,
modelled as arbitrary total functions of exactly the arguments the Python
source passes them. -/
structure Env where
  read_config : Config
  read_model : String → Config → ModelHandle
  format_args : String → Config → Option Nat → List String
  retinanet_train : List String → String → Option (List String) → Option Nat →
    ModelHandle × ModelHandle × ModelHandle
  release_path : String
  convert_model : Option ModelHandle → ModelHandle
  image_at : String → Nat × Nat
  render : ModelHandle → String → Nat
  detect : ModelHandle → String → Boxes

/-- The `deepforest` session object.  Attributes the Python object has not
yet assigned (`prediction_model`, `training_model` before any call, and
`model` when constructed without a saved-model path) are `none`. -/
structure deepforest where
  saved_model : Option String
  config : Config
  model : Option ModelHandle
  prediction_model : Option ModelHandle
  training_model : Option ModelHandle
deriving DecidableEq, Repr

/-- `deepforest.__init__`: store the saved-model path, read the config
file once, and load the model from disk only when a path was given. -/
def deepforest.init (env : Env) (saved_model : Option String) : deepforest :=
  let config := env.read_config
  { saved_model := saved_model
    config := config
    model :=
      match saved_model with
      | some p => some (env.read_model p config)
      | none => none
    prediction_model := none
    training_model := none }

/-- `deepforest.train`: format the args from the annotations file and the
config, call the delegated `retinanet_train`, and store the three resulting
handles on the session.  The Python body has no `return` statement, so the
call itself returns `None` to the caller, modelled by the second component
being `none`. -/
def deepforest.train (env : Env) (s : deepforest) (annotations : String)
    (input_type : String) (list_of_tfrecords : Option (List String))
    (comet_experiment : Option Nat) (images_per_epoch : Option Nat) :
    deepforest × Option (ModelHandle × ModelHandle × ModelHandle) :=
  let arg_list := env.format_args annotations s.config images_per_epoch
  let r := env.retinanet_train arg_list input_type list_of_tfrecords comet_experiment
  ({ s with model := some r.1, prediction_model := some r.2.1, training_model := some r.2.2 },
    none)

/-- `deepforest.use_release`.  `utilities.use_release` is code of this
repository not under `src/`; modelled from the spec: it resolves (and if
needed downloads) the latest release artifact and returns its local path,
here `env.release_path`.  The wrapper stores that path as `saved_model`
and loads the model from it. -/
def deepforest.use_release (env : Env) (s : deepforest) : deepforest :=
  let saved := env.release_path
  { s with saved_model := some saved, model := some (env.read_model saved s.config) }

/-- The invalid-state error message raised by `predict_image` when no
saved-model path is present, verbatim from the source. -/
def noWeightsMsg : String :=
  "Model currently has no weights, either train a new model using deepforest.train, loading existing model, or use prebuilt model (see deepforest.use_release()"

/-- Whether the first list is a prefix of the second, as an executable
check on characters. -/
def listPrefixEq : List Char → List Char → Bool
  | [], _ => true
  | _ :: _, [] => false
  | a :: as, b :: bs => a == b && listPrefixEq as bs

/-- Whether `sub` occurs as a contiguous segment of the second list. -/
def listContainsSeg (sub : List Char) : List Char → Bool
  | [] => listPrefixEq sub []
  | c :: cs => listPrefixEq sub (c :: cs) || listContainsSeg sub cs

/-- Whether `sub` occurs as a contiguous substring of `s`. -/
def strContains (s sub : String) : Bool :=
  listContainsSeg sub.data s.data

/-- Modelled from the spec: `predict.predict_image` (module
`deepforest.predict`) is code of this repository not under `src/`.  Per the
spec, with `return_plot` it returns the input image with the predicted
bounding boxes overlaid, at the same spatial dimensions as the input image
found at `image_path`; otherwise it returns only the structured array of
predicted boxes, omitting any rendering. -/
def predict.predict_image (env : Env) (m : ModelHandle) (image_path : String)
    (return_plot : Bool) : PredictOutput :=
  if return_plot then
    PredictOutput.image
      ⟨(env.image_at image_path).1, (env.image_at image_path).2, env.render m image_path⟩
  else
    PredictOutput.boxes (env.detect m image_path)

/-- `deepforest.predict_image`: raise the invalid-state `ValueError` when
`saved_model` is `None`; otherwise reassign `prediction_model` to
`convert_model(model)`, delegate to `predict.predict_image` with the given
`return_plot`, and when a plot is returned and `shw` is set also display
it.  Returns the post-call session, the result (`Except.error` models the
raised exception), and the trace of external routines invoked. -/
def deepforest.predict_image (env : Env) (s : deepforest) (image_path : String)
    (return_plot : Bool) (shw : Bool) :
    deepforest × Except String PredictOutput × List ExtCall :=
  match s.saved_model with
  | none => (s, Except.error noWeightsMsg, [])
  | some _ =>
    let pm := env.convert_model s.model
    let s' := { s with prediction_model := some pm }
    if return_plot then
      let image := predict.predict_image env pm image_path true
      (s', Except.ok image,
        [ExtCall.convertModel, ExtCall.predictExt] ++ if shw then [ExtCall.showPlot] else [])
    else
      let boxes := predict.predict_image env pm image_path false
      (s', Except.ok boxes, [ExtCall.convertModel, ExtCall.predictExt])

/-- A public operation on a session, for reasoning about sequences of
calls. -/
inductive Op where
  | train (annotations input_type : String) (tfr : Option (List String))
      (comet ipe : Option Nat)
  | useRelease
  | predictImage (image_path : String) (return_plot shw : Bool)
deriving Repr

/-- Apply one public operation to a session, keeping only the post-state. -/
def applyOp (env : Env) (s : deepforest) : Op → deepforest
  | Op.train a it tf c i => (deepforest.train env s a it tf c i).1
  | Op.useRelease => deepforest.use_release env s
  | Op.predictImage p rp sh => (deepforest.predict_image env s p rp sh).1

/-- Run a sequence of public operations from a starting session state. -/
def runOps (env : Env) (s : deepforest) : List Op → deepforest
  | [] => s
  | o :: os => runOps env (applyOp env s o) os

/-- A concrete environment used to evaluate the embedding on closed
inputs. -/
def envA : Env where
  read_config := ⟨[("batch_size", "1"), ("epochs", "1"), ("backbone", "resnet50")]⟩
  read_model := fun p _ => ⟨p.length⟩
  format_args := fun a _ _ => [a]
  retinanet_train := fun _ _ _ _ => (⟨10⟩, ⟨11⟩, ⟨12⟩)
  release_path := "NEON.h5"
  convert_model := fun m => ⟨100 + (match m with | some h => h.id | none => 0)⟩
  image_at := fun _ => (5, 7)
  render := fun m p => m.id + p.length
  detect := fun m p => ⟨1000 * m.id + p.length⟩

/-- Helper: no public operation changes the session's `config` field. -/
theorem applyOp_config (env : Env) (s : deepforest) (o : Op) :
    (applyOp env s o).config = s.config := by
  cases o with
  | train a it tf c i => rfl
  | useRelease => rfl
  | predictImage p rp sh =>
    simp only [applyOp, deepforest.predict_image]
    cases hs : s.saved_model with
    | none => rfl
    | some q => cases rp <;> rfl

/-- Helper: running any sequence of public operations preserves `config`. -/
theorem runOps_config (env : Env) (s : deepforest) (ops : List Op) :
    (runOps env s ops).config = s.config := by
  induction ops generalizing s with
  | nil => rfl
  | cons o os ih => rw [runOps, ih, applyOp_config]

/-- C1: the claim fails on the code: on a session constructed with no
saved-model path on which `train` completed (its model handle is set), a
subsequent `predict_image` still raises the invalid-state error, because
the precondition check tests `saved_model`, which `train` never assigns,
even though the error message names `deepforest.train` as a remedy. -/
theorem predict_after_train_raises :
    ((deepforest.train envA (deepforest.init envA none) "annotations.csv"
        "fit_generator" none none none).1).model = some ⟨10⟩ ∧
    (deepforest.predict_image envA
        (deepforest.train envA (deepforest.init envA none) "annotations.csv"
          "fit_generator" none none none).1
        "image.jpg" true false).2.1 = Except.error noWeightsMsg :=
  ⟨rfl, rfl⟩

/-- C2: for every environment, a session constructed with no saved-model
path (and no later loading operation) raises the invalid-state error from
`predict_image` for every image path and both flags, and the message
instructs the caller to train a model, load an existing model, or use the
prebuilt release model. -/
theorem predict_image_no_model_raises (env : Env) (image_path : String)
    (return_plot shw : Bool) :
    (deepforest.predict_image env (deepforest.init env none) image_path
        return_plot shw).2.1 = Except.error noWeightsMsg ∧
    strContains noWeightsMsg "train a new model using deepforest.train" = true ∧
    strContains noWeightsMsg "loading existing model" = true ∧
    strContains noWeightsMsg "use prebuilt model (see deepforest.use_release()" = true :=
  ⟨rfl, by decide, by decide, by decide⟩

/-- C3: the claim fails on the code: `train` stores the three handles on
the session, but its Python body has no `return` statement, so every call
returns `None` to the caller, never the three model handles its docstring
promises. -/
theorem train_returns_none (env : Env) (s : deepforest)
    (annotations input_type : String) (tfr : Option (List String))
    (comet ipe : Option Nat) :
    (deepforest.train env s annotations input_type tfr comet ipe).2 = none :=
  rfl

/-- C4: after `use_release`, the loaded model handle is non-empty and the
saved-model path equals the local path of the resolved release artifact, so
every subsequent `predict_image` passes the precondition check and proceeds
to inference (returns `Except.ok`). -/
theorem use_release_enables_predict (env : Env) (s : deepforest)
    (image_path : String) (return_plot shw : Bool) :
    (deepforest.use_release env s).saved_model = some env.release_path ∧
    (deepforest.use_release env s).model
      = some (env.read_model env.release_path (deepforest.use_release env s).config) ∧
    ∃ out, (deepforest.predict_image env (deepforest.use_release env s)
        image_path return_plot shw).2.1 = Except.ok out := by
  refine ⟨rfl, rfl, ?_⟩
  cases return_plot <;> exact ⟨_, rfl⟩

/-- C5: two `predict_image` calls that differ only in the `show` flag
return the same value and leave the same post-state; `show = true` only
appends the display call to the trace of external routines, and only when
a plot is produced. -/
theorem predict_image_show_irrelevant (env : Env) (s : deepforest)
    (image_path : String) (return_plot : Bool) :
    (deepforest.predict_image env s image_path return_plot true).1
      = (deepforest.predict_image env s image_path return_plot false).1 ∧
    (deepforest.predict_image env s image_path return_plot true).2.1
      = (deepforest.predict_image env s image_path return_plot false).2.1 ∧
    (deepforest.predict_image env s image_path return_plot true).2.2
      = (deepforest.predict_image env s image_path return_plot false).2.2
        ++ (if return_plot && s.saved_model.isSome then [ExtCall.showPlot] else []) := by
  simp only [deepforest.predict_image]
  cases hs : s.saved_model with
  | none => simp
  | some q => cases return_plot <;> simp

/-- C6: on a session that passes the precondition check, `predict_image`
with `return_plot = true` returns the image array from the delegated
routine, with the same spatial dimensions as the input image, and with
`return_plot = false` it returns the structured array of predicted boxes
from the delegated routine, not an image. -/
theorem predict_image_return_modes (env : Env) (s : deepforest)
    (p image_path : String) (shw : Bool) (h : s.saved_model = some p) :
    (∃ img : Image,
        (deepforest.predict_image env s image_path true shw).2.1
          = Except.ok (PredictOutput.image img) ∧
        img.height = (env.image_at image_path).1 ∧
        img.width = (env.image_at image_path).2) ∧
    (deepforest.predict_image env s image_path false shw).2.1
      = Except.ok (PredictOutput.boxes
          (env.detect (env.convert_model s.model) image_path)) := by
  simp only [deepforest.predict_image, h, predict.predict_image]
  exact ⟨⟨_, rfl, rfl, rfl⟩, rfl⟩

/-- Witness for C6 at a concrete session and image path. -/
theorem predict_image_return_modes_witness :
    (∃ img : Image,
        (deepforest.predict_image envA (deepforest.init envA (some "m.h5"))
            "img.jpg" true false).2.1 = Except.ok (PredictOutput.image img) ∧
        img.height = (envA.image_at "img.jpg").1 ∧
        img.width = (envA.image_at "img.jpg").2) ∧
    (deepforest.predict_image envA (deepforest.init envA (some "m.h5"))
        "img.jpg" false false).2.1
      = Except.ok (PredictOutput.boxes
          (envA.detect (envA.convert_model (deepforest.init envA (some "m.h5")).model)
            "img.jpg")) :=
  predict_image_return_modes envA (deepforest.init envA (some "m.h5")) "m.h5"
    "img.jpg" false rfl

/-- C7: every completed `train` call overwrites the session's `model`,
`prediction_model` and `training_model` references with exactly the three
handles produced by the delegated `retinanet_train` routine. -/
theorem train_overwrites_handles (env : Env) (s : deepforest)
    (annotations input_type : String) (tfr : Option (List String))
    (comet ipe : Option Nat) :
    ((deepforest.train env s annotations input_type tfr comet ipe).1).model
      = some (env.retinanet_train (env.format_args annotations s.config ipe)
          input_type tfr comet).1 ∧
    ((deepforest.train env s annotations input_type tfr comet ipe).1).prediction_model
      = some (env.retinanet_train (env.format_args annotations s.config ipe)
          input_type tfr comet).2.1 ∧
    ((deepforest.train env s annotations input_type tfr comet ipe).1).training_model
      = some (env.retinanet_train (env.format_args annotations s.config ipe)
          input_type tfr comet).2.2 :=
  ⟨rfl, rfl, rfl⟩

/-- C8: every `predict_image` call that passes the precondition check
reassigns `prediction_model` to a fresh conversion of the currently held
model (no caching across calls), and leaves `model`, `saved_model`,
`config` and `training_model` unchanged. -/
theorem predict_image_reconverts (env : Env) (s : deepforest)
    (p image_path : String) (return_plot shw : Bool)
    (h : s.saved_model = some p) :
    ((deepforest.predict_image env s image_path return_plot shw).1).prediction_model
      = some (env.convert_model s.model) ∧
    ((deepforest.predict_image env s image_path return_plot shw).1).model = s.model ∧
    ((deepforest.predict_image env s image_path return_plot shw).1).saved_model
      = s.saved_model ∧
    ((deepforest.predict_image env s image_path return_plot shw).1).config = s.config ∧
    ((deepforest.predict_image env s image_path return_plot shw).1).training_model
      = s.training_model := by
  simp only [deepforest.predict_image, h]
  cases return_plot <;> exact ⟨rfl, rfl, rfl, rfl, rfl⟩

/-- Witness for C8 at a concrete session. -/
theorem predict_image_reconverts_witness :
    ((deepforest.predict_image envA (deepforest.init envA (some "m.h5"))
        "img.jpg" true false).1).prediction_model
      = some (envA.convert_model (deepforest.init envA (some "m.h5")).model) ∧
    ((deepforest.predict_image envA (deepforest.init envA (some "m.h5"))
        "img.jpg" true false).1).model = (deepforest.init envA (some "m.h5")).model ∧
    ((deepforest.predict_image envA (deepforest.init envA (some "m.h5"))
        "img.jpg" true false).1).saved_model
      = (deepforest.init envA (some "m.h5")).saved_model ∧
    ((deepforest.predict_image envA (deepforest.init envA (some "m.h5"))
        "img.jpg" true false).1).config = (deepforest.init envA (some "m.h5")).config ∧
    ((deepforest.predict_image envA (deepforest.init envA (some "m.h5"))
        "img.jpg" true false).1).training_model
      = (deepforest.init envA (some "m.h5")).training_model :=
  predict_image_reconverts envA (deepforest.init envA (some "m.h5")) "m.h5"
    "img.jpg" true false rfl

/-- C9: the configuration is read exactly once, at construction, and no
sequence of public operations (`train`, `use_release`, `predict_image`)
changes the session's `config` field from the value read there. -/
theorem config_immutable (env : Env) (sm : Option String) (ops : List Op) :
    (runOps env (deepforest.init env sm) ops).config = env.read_config := by
  rw [runOps_config]
  cases sm <;> rfl

/-- C10: when `predict_image` raises the invalid-state error, the session
state is returned entirely unchanged and the trace of invoked external
routines is empty: the check runs before the model conversion and before
any delegated call. -/
theorem predict_image_error_frame (env : Env) (s : deepforest)
    (image_path : String) (return_plot shw : Bool) (h : s.saved_model = none) :
    deepforest.predict_image env s image_path return_plot shw
      = (s, Except.error noWeightsMsg, []) := by
  simp only [deepforest.predict_image, h]

/-- Witness for C10 at a concrete session. -/
theorem predict_image_error_frame_witness :
    deepforest.predict_image envA (deepforest.init envA none) "img.jpg" true false
      = (deepforest.init envA none, Except.error noWeightsMsg, []) :=
  predict_image_error_frame envA (deepforest.init envA none) "img.jpg" true false rfl
